import Mathlib

/-!
Verification development for the IndiaMART lead-automation extension
(content script `content.ts`, background coordinator `background.ts`).

The TypeScript source is shallowly embedded: each JavaScript helper is
translated into an executable Lean definition under the same name, with
JavaScript strings as `String`, JavaScript numbers as `ℚ` (the values in
play are finite decimals), `undefined`-able values as `Option`, and the
mutable module state threaded explicitly.  Claims about the behaviour of
the code are then proved as theorems about these definitions.
-/

namespace AiIndiaMart

/-! ## JavaScript string primitives -/

/-- JavaScript `String.prototype.toLowerCase` restricted to the ASCII range
(the source only lowercases ASCII text; `Char.toLower` agrees there). -/
def jsToLower (s : String) : String := ⟨s.data.map Char.toLower⟩

/-- Is `sub` a contiguous infix of the list (empty is an infix of all)? -/
def listIsInfixOf (sub : List Char) : List Char → Bool
  | [] => List.isPrefixOf sub []
  | c :: rest => List.isPrefixOf sub (c :: rest) || listIsInfixOf sub rest

/-- JavaScript `a.includes(b)`: substring containment (the empty string is
contained in everything). -/
def jsIncludes (s sub : String) : Bool := listIsInfixOf sub.data s.data

/-- Whitespace test used by `String.prototype.trim` (ASCII/Unicode blank). -/
def jsIsWs (c : Char) : Bool := c.isWhitespace

/-- JavaScript `String.prototype.trim`. -/
def jsTrim (s : String) : String :=
  ⟨((s.data.dropWhile jsIsWs).reverse.dropWhile jsIsWs).reverse⟩

/-- `sanitize` (content.ts line 754): `(value || '').trim()`. -/
def sanitize (value : Option String) : String := jsTrim (value.getD "")

/-- `sanitizeOptional` (content.ts line 755): empty results become `undefined`. -/
def sanitizeOptional (value : Option String) : Option String :=
  let cleaned := sanitize value
  if cleaned = "" then none else some cleaned

/-- JavaScript `a || b` on strings (empty string is falsy). -/
def jsOrStr (a b : String) : String := if a = "" then b else a

/-- JavaScript truthiness of a nullable string (`null`/`''` are falsy). -/
def jsTruthyStr (a : Option String) : Bool :=
  match a with
  | none => false
  | some s => s ≠ ""

/-- JavaScript `a || b` where `a` is a possibly-`undefined` number
(`undefined` and `0` are falsy). -/
def jsOrNum (a : Option ℚ) (b : ℚ) : ℚ :=
  match a with
  | none => b
  | some x => if x = 0 then b else x

/-! ## Numeric parsing of digit/dot remainders

`parseQuantity` hands `Number(...)` a string made only of digits and dots.
`Number` yields a finite value exactly when that string is a decimal
numeral with at most one dot and at least one digit; otherwise it yields
`NaN`, which the source's `Number.isFinite` guard turns into `undefined`. -/

/-- Value of a digit string (most significant first). -/
def digitsVal (l : List Char) : ℕ :=
  l.foldl (fun a c => a * 10 + (c.toNat - 48)) 0

/-- Rational multiplication written through `mkRat` so that the kernel can
evaluate it (the library's `Rat.mul` is `@[irreducible]`); proved equal to
`a * b` in `qMul_eq_mul` below. -/
def qMul (a b : ℚ) : ℚ := mkRat (a.num * b.num) (a.den * b.den)

/-- Rational addition through `mkRat`; proved equal to `a + b` in
`qAdd_eq_add` below. -/
def qAdd (a b : ℚ) : ℚ := mkRat (a.num * b.den + b.num * a.den) (a.den * b.den)

/-- JavaScript `Number(s)` for a string `s` consisting only of digits and
dots, `none` when the result is `NaN`. -/
def jsNumberOfDigitsDots (l : List Char) : Option ℚ :=
  if l = [] then none
  else if l.count '.' = 0 then some (digitsVal l)
  else if l.count '.' = 1 then
    let intPart := l.takeWhile (fun c => c ≠ '.')
    let fracPart := (l.dropWhile (fun c => c ≠ '.')).tail
    if intPart = [] ∧ fracPart = [] then none
    else some (qAdd (digitsVal intPart : ℚ) (mkRat (digitsVal fracPart) (10 ^ fracPart.length)))
  else none

/-- Result type of `parseQuantity` (content.ts line 1330). -/
structure QuantityInfo where
  raw : Option String
  quantity : Option ℚ
deriving DecidableEq, Repr

/-- `parseQuantity` (content.ts lines 1330-1339): trim the text, delete every
character that is not a digit or a dot, and feed the whole remainder to
`Number`; a non-finite or empty remainder leaves `quantity` undefined. -/
def parseQuantity (value : Option String) : QuantityInfo :=
  if jsTruthyStr value = false then ⟨none, none⟩
  else
    let raw := sanitize value
    let digits := raw.data.filter (fun c => c.isDigit || c = '.')
    let quantity := if digits = [] then none else jsNumberOfDigitsDots digits
    ⟨some raw, quantity⟩

/-! ## `parseRupeeRange` (content.ts lines 1341-1375) -/

/-- JavaScript regex word character (`\w`): ASCII letter, digit or `_`. -/
def isWordChar (c : Char) : Bool := c.isAlphanum || c = '_'

/-- Does `tok` (a word made of word characters) occur in `l` bounded by `\b`
on both sides?  Models `/\btok\b/.test(...)` for the scale keywords. -/
def hasWordTokenAux (tok : List Char) : Option Char → List Char → Bool
  | _, [] => false
  | prev, c :: rest =>
    let boundaryBefore := match prev with
      | none => true
      | some p => !isWordChar p
    let here := boundaryBefore && List.isPrefixOf tok (c :: rest) &&
      (match (c :: rest).drop tok.length with
       | [] => true
       | d :: _ => !isWordChar d)
    here || hasWordTokenAux tok (some c) rest

def hasWordToken (tok : String) (s : String) : Bool :=
  hasWordTokenAux tok.data none s.data

/-- Case-insensitive prefix test (for the currency-stripping regex, which
carries the `i` flag). -/
def ciIsPrefixOf (tok l : List Char) : Bool :=
  List.isPrefixOf (tok.map Char.toLower) (l.map Char.toLower)

/-- One pass of `raw.replace(/(?:rs\.?|inr|₹)/gi, ' ')`: scan left to right,
at each position try the alternatives in the regex's order, replace a match
by one space.  Structured with fuel (always called with enough). -/
def stripCurrencyAux : ℕ → List Char → List Char
  | 0, _ => []
  | _, [] => []
  | fuel + 1, c :: rest =>
    if ciIsPrefixOf "rs.".data (c :: rest) then
      ' ' :: stripCurrencyAux fuel ((c :: rest).drop 3)
    else if ciIsPrefixOf "rs".data (c :: rest) then
      ' ' :: stripCurrencyAux fuel rest.tail
    else if ciIsPrefixOf "inr".data (c :: rest) then
      ' ' :: stripCurrencyAux fuel ((c :: rest).drop 3)
    else if c = '₹' then
      ' ' :: stripCurrencyAux fuel rest
    else
      c :: stripCurrencyAux fuel rest

def stripCurrency (l : List Char) : List Char := stripCurrencyAux l.length l

/-- All matches of `/\d[\d,]*(?:\.\d+)?/g` in `l`, left to right
(greedy digit/comma run, then an optional dot followed by at least one
digit).  Fuel-structured; always called with enough fuel. -/
def extractNumTokensAux : ℕ → List Char → List (List Char)
  | 0, _ => []
  | _, [] => []
  | fuel + 1, c :: rest =>
    if c.isDigit then
      let body := rest.takeWhile (fun x => x.isDigit || x = ',')
      let rest1 := rest.drop body.length
      match rest1 with
      | '.' :: r2 =>
        let frac := r2.takeWhile Char.isDigit
        if frac = [] then (c :: body) :: extractNumTokensAux fuel rest1
        else (c :: body ++ '.' :: frac) :: extractNumTokensAux fuel (r2.drop frac.length)
      | _ => (c :: body) :: extractNumTokensAux fuel rest1
    else extractNumTokensAux fuel rest

def extractNumTokens (l : List Char) : List (List Char) :=
  extractNumTokensAux l.length l

/-- `token.replace(/,/g, '')` then `Number(token)`: the token is digits and
commas with an optional `.digits` tail, so after removing commas it is a
plain decimal numeral. -/
def numTokenValue (tok : List Char) : Option ℚ :=
  jsNumberOfDigitsDots (tok.filter (fun c => c ≠ ','))

/-- Result type of `parseRupeeRange` (content.ts line 1341). -/
structure RupeeRange where
  raw : Option String
  min : Option ℚ
  max : Option ℚ
deriving DecidableEq, Repr

/-- `parseRupeeRange` (content.ts lines 1341-1375): detect a lakh/crore
scale keyword, strip currency prefixes, extract the numeric tokens, scale
them, take the first as `min` and the last as `max`. -/
def parseRupeeRange (value : Option String) : RupeeRange :=
  if jsTruthyStr value = false then ⟨none, none, none⟩
  else
    let raw := sanitize value
    let lower := jsToLower raw
    let scale : ℚ :=
      if hasWordToken "crore" lower || hasWordToken "cr" lower then 10000000
      else if hasWordToken "lakh" lower || hasWordToken "lac" lower ||
              hasWordToken "lacs" lower || hasWordToken "l" lower then 100000
      else 1
    let withoutCurrency := stripCurrency raw.data
    let toks := extractNumTokens withoutCurrency
    if toks = [] then ⟨some raw, none, none⟩
    else
      let numbers := (toks.filterMap numTokenValue).map (fun n => qMul n scale)
      match numbers with
      | [] => ⟨some raw, none, none⟩
      | n :: ns =>
        let mn := n
        let mx := (n :: ns).getLast (by simp)
        ⟨some raw, some mn, some mx⟩

/-! ## The `Lead` record (types.ts) -/

/-- The `Lead` interface (types.ts).  JavaScript numbers are embedded as `ℚ`
(every value produced by the parsers above is a finite decimal). -/
structure Lead where
  leadId : String
  companyName : String
  enquiryTitle : String
  requirement : String
  contactInfo : String
  location : String
  timestamp : String
  quantityRaw : Option String
  quantity : Option ℚ
  category : Option String
  fabric : Option String
  probableOrderValueRaw : Option String
  probableOrderValueMin : Option ℚ
  probableOrderValueMax : Option ℚ
  cardIndex : Option ℕ
deriving DecidableEq, Repr

/-! ## The filter evaluator (content.ts lines 1908-2187) -/

/-- `DEFAULT_ENQUIRY_KEYWORDS` (content.ts line 1915). -/
def DEFAULT_ENQUIRY_KEYWORDS : List String :=
  ["uniform", "uniform fabric", "uniform blazers", "uniform jackets", "school jackets",
   "nurse uniform", "chef coats", "corporate uniform", "staff uniform", "ncc uniform",
   "waiter uniform", "kids school uniform", "school uniforms", "school blazers",
   "school blazer", "school uniform fabric", "worker uniform", "security guard uniform",
   "petrol pump uniform", "safety suits", "boys school uniform", "surgical gown",
   "hospital uniforms"]

/-- `DEFAULT_ALLOWED_CATEGORIES` (content.ts line 1922). -/
def DEFAULT_ALLOWED_CATEGORIES : List String :=
  ["kids school uniform", "kids school uniforms", "school uniforms", "school blazers",
   "school blazer", "school uniform fabric", "worker uniform", "uniform fabric",
   "security guard uniform", "petrol pump uniform", "safety suits", "boys school uniform",
   "surgical gown", "hospital uniforms", "corporate uniform", "school college uniforms",
   "school jackets"]

/-- `foreignIndicators` (content.ts line 1933), a module constant. -/
def foreignIndicators : List String :=
  ["usa", "uk", "uae", "canada", "australia", "singapore", "malaysia"]

/-- The mutable filter configuration of the content script: the runtime
arrays `enquiryKeywords` / `allowedCategories`, the `quantityThreshold`
record, `orderValueMin`, and the `filterConfigLoaded` flag.  The numeric
thresholds are naturals: `loadFilterConfig`/`saveFilterConfig` clamp them
into the integer ranges 1..1,000,000 and 0..100,000,000. -/
structure FilterConfig where
  enquiryKeywords : List String
  allowedCategories : List String
  quantityMin : ℕ
  quantityUnit : String
  orderValueMin : ℕ
  loaded : Bool
deriving DecidableEq, Repr

/-- The configuration in force when storage holds nothing: the default
arrays, `{ min: 100, unit: 'piece' }`, `orderValueMin = 50000`, with
`filterConfigLoaded` set (as after `loadFilterConfig`). -/
def defaultFilterConfig : FilterConfig :=
  ⟨DEFAULT_ENQUIRY_KEYWORDS, DEFAULT_ALLOWED_CATEGORIES, 100, "piece", 50000, true⟩

/-- Output of `applyIntelligentFilter` (content.ts line 2130). -/
structure Verdict where
  passed : Bool
  reason : String
  nextContactDelayMinutes : ℕ
deriving DecidableEq, Repr

/-- `(lead.enquiryTitle || lead.requirement || '').toLowerCase()`. -/
def titleLowerOf (lead : Lead) : String :=
  jsToLower (jsOrStr lead.enquiryTitle (jsOrStr lead.requirement ""))

/-- Filter 1 condition: some runtime keyword occurs in the lowered title. -/
def hasKeywordB (cfg : FilterConfig) (lead : Lead) : Bool :=
  cfg.enquiryKeywords.any (fun keyword => jsIncludes (titleLowerOf lead) keyword)

/-- Filter 2 condition: a foreign indicator occurs in the lowered location. -/
def isForeignB (lead : Lead) : Bool :=
  foreignIndicators.any (fun country => jsIncludes (jsToLower lead.location) country)

/-- Filter 3 condition (`quantityUnitOk`, content.ts line 2153): the parsed
quantity exists and meets the threshold AND the raw quantity text mentions
the unit token case-insensitively. -/
def quantityUnitOkB (cfg : FilterConfig) (lead : Lead) : Bool :=
  match lead.quantity, lead.quantityRaw with
  | some q, some raw =>
    decide ((cfg.quantityMin : ℚ) ≤ q) && jsIncludes (jsToLower raw) cfg.quantityUnit
  | _, _ => false

/-- `unit.charAt(0).toUpperCase() + unit.slice(1)`. -/
def capitalizeFirst (s : String) : String :=
  match s.data with
  | [] => ""
  | c :: rest => ⟨c.toUpper :: rest⟩

/-- The single quantity-failure reason string (content.ts line 2161): it is
produced both when no numeric quantity was parsed and when the numeric
quantity or the unit mention fails. -/
def quantityFailReason (cfg : FilterConfig) : String :=
  "Quantity must be ≥ " ++ Nat.repr cfg.quantityMin ++ " " ++ capitalizeFirst cfg.quantityUnit

/-- Filter 4 condition: the category fuzzy-matches (substring in either
direction) some allow-listed category. -/
def hasCategoryB (cfg : FilterConfig) (lead : Lead) : Bool :=
  cfg.allowedCategories.any (fun keyword =>
    let normalized := jsToLower keyword
    let categoryLower := jsToLower (lead.category.getD "")
    jsIncludes categoryLower normalized || jsIncludes normalized categoryLower)

/-- `lead.probableOrderValueMin || lead.probableOrderValueMax || 0`. -/
def orderValueOf (lead : Lead) : ℚ :=
  jsOrNum lead.probableOrderValueMin (jsOrNum lead.probableOrderValueMax 0)

/-- `Number.prototype.toLocaleString` for a natural number: digit grouping
(groups of three, as in the browser's usual default locale; no claim below
depends on the grouping). -/
def localeGroupAux : List Char → ℕ → List Char
  | [], _ => []
  | c :: rest, i =>
    if i % 3 = 0 ∧ i ≠ 0 then ',' :: c :: localeGroupAux rest (i + 1)
    else c :: localeGroupAux rest (i + 1)

def natToLocaleString (n : ℕ) : String :=
  ⟨(localeGroupAux (Nat.repr n).data.reverse 0).reverse⟩

/-- `delayOptions` (content.ts line 2183). -/
def delayOptions : List ℕ := [1, 5, 10]

/-- `applyIntelligentFilter` (content.ts lines 2130-2187).  The call to
`Math.random()` is modelled by the extra argument `r : Fin 3`, the value of
`Math.floor(Math.random() * delayOptions.length)`. -/
def applyIntelligentFilter (cfg : FilterConfig) (r : Fin 3) (lead : Lead) : Verdict :=
  if cfg.loaded = false then ⟨false, "Filter config not loaded", 0⟩
  else if hasKeywordB cfg lead = false then ⟨false, "No uniform keywords found", 0⟩
  else if isForeignB lead then ⟨false, "Foreign location", 0⟩
  else if quantityUnitOkB cfg lead = false then ⟨false, quantityFailReason cfg, 0⟩
  else if hasCategoryB cfg lead = false ∧ jsTruthyStr lead.category then
    ⟨false, "Category not in allowed list", 0⟩
  else if orderValueOf lead < (cfg.orderValueMin : ℚ) then
    ⟨false, "Order value < ₹" ++ natToLocaleString cfg.orderValueMin, 0⟩
  else ⟨true, "Meets all criteria", delayOptions.getD r.val 0⟩

/-! ## `buildLeadId` (content.ts lines 1605-1615) -/

/-- The identifying bits of a lead card element: the `data-lead-id`
attribute (`getAttribute` yields `null` or a string) and the raw `value` of
the first `ofrid`-like / `gridParam`-like hidden input, when such an input
exists. -/
structure LeadCardIds where
  dataLeadId : Option String
  ofridValue : Option String
  gridParamValue : Option String
deriving DecidableEq, Repr

/-- JavaScript `a || b` on possibly-absent strings. -/
def jsOrOptStr (a b : Option String) : Option String :=
  if jsTruthyStr a then a else b

/-- `.replace(/\s+/g, '-')`: each maximal whitespace run becomes one dash. -/
def collapseWsAux : Bool → List Char → List Char
  | _, [] => []
  | inRun, c :: rest =>
    if jsIsWs c then
      (if inRun then collapseWsAux true rest else '-' :: collapseWsAux true rest)
    else c :: collapseWsAux false rest

def replaceWsRunsWithDash (s : String) : String := ⟨collapseWsAux false s.data⟩

/-- `buildLeadId` (content.ts lines 1605-1615): use a truthy `data-lead-id`
attribute, else a hidden `ofrid`/`gridParam` input value (via
`getInputValue`, i.e. `sanitizeOptional` of the raw value), else the
fallback composite of position, title and timestamp. -/
def buildLeadId (card : LeadCardIds) (index : ℕ) (title timestamp : String) : String :=
  if jsTruthyStr card.dataLeadId then card.dataLeadId.getD ""
  else
    let hiddenId := jsOrOptStr (sanitizeOptional card.ofridValue) (sanitizeOptional card.gridParamValue)
    if jsTruthyStr hiddenId then hiddenId.getD ""
    else
      replaceWsRunsWithDash
        (Nat.repr index ++ "-" ++ jsOrStr title "lead" ++ "-" ++ jsOrStr timestamp "time")

/-! ## `setElementValue` (content.ts lines 944-966) -/

/-- A DOM field as `setElementValue` sees it: whether it has a `.value`
property (textarea/input — the source's first two branches are identical),
whether it is content-editable, and its current content. -/
structure DomField where
  hasValue : Bool
  isContentEditable : Bool
  value : String
  textContent : String
deriving DecidableEq, Repr

/-- Observable outcome of `setElementValue`: the field afterwards, the
events dispatched on it (in order), and whether it was focused. -/
structure SetValueResult where
  element : DomField
  dispatchedEvents : List String
  focused : Bool
deriving DecidableEq, Repr

/-- `setElementValue` (content.ts lines 944-966): write `value` into the
field and dispatch `input`/`change`, except that a field whose current
content is truthy and not whitespace-only is left untouched. -/
def setElementValue (element : DomField) (value : String) : SetValueResult :=
  if element.hasValue then
    if element.value ≠ "" ∧ jsTrim element.value ≠ "" then ⟨element, [], false⟩
    else ⟨{ element with value := value }, ["input", "change"], true⟩
  else if element.isContentEditable then
    if element.textContent ≠ "" ∧ jsTrim element.textContent ≠ "" then ⟨element, [], false⟩
    else ⟨{ element with textContent := value }, ["input", "change"], true⟩
  else ⟨element, [], false⟩

/-! ## The skip registry (content.ts lines 1193-1245) and the
per-lead loop of `processLeadsWithFiltering` (lines 2554-2594) -/

/-- An entry of the stored skip array.  `loadSkippedLeads` filters the
stored array with `typeof id === 'string'`, so non-string junk is
representable. -/
inductive StoredItem
  | str (s : String)
  | nonString
deriving DecidableEq, Repr

/-- The content script's slice of `chrome.storage.local`: the value at
`SKIPPED_LEADS_KEY` (`indiamart_skipped_leads`), when present. -/
structure SkipStorage where
  skippedIds : Option (List StoredItem)
deriving DecidableEq, Repr

/-- Insertion into a JavaScript `Set` serialized as its insertion-ordered
element list. -/
def insertSet (l : List String) (x : String) : List String :=
  if x ∈ l then l else l ++ [x]

/-- `new Set(list)`: deduplicate keeping first occurrences. -/
def setOfList (l : List String) : List String := l.foldl insertSet []

/-- The content script's in-memory registries: `skippedLeads` (durable) and
`processedLeads` (volatile), each a `Set` of lead ids. -/
structure RegistryState where
  skippedLeads : List String
  processedLeads : List String
deriving DecidableEq, Repr

/-- `loadSkippedLeads` (content.ts lines 1193-1214): read the stored array,
keep its strings, and build the in-memory set; a missing or empty value
yields the empty set. -/
def loadSkippedLeads (storage : SkipStorage) : List String :=
  match storage.skippedIds with
  | some items =>
    if items.length > 0 then
      setOfList (items.filterMap (fun v =>
        match v with
        | .str s => some s
        | .nonString => none))
    else []
  | none => []

/-- `addSkippedLead` (content.ts lines 1217-1239): guard against falsy ids,
add to the in-memory set, and persist the whole set as an array. -/
def addSkippedLead (st : RegistryState) (storage : SkipStorage) (leadId : String) :
    RegistryState × SkipStorage :=
  if leadId = "" then (st, storage)
  else
    let sk := insertSet st.skippedLeads leadId
    ({ st with skippedLeads := sk }, ⟨some (sk.map .str)⟩)

/-- `isLeadSkipped` (content.ts lines 1242-1245). -/
def isLeadSkipped (st : RegistryState) (leadId : String) : Bool :=
  if leadId = "" then false else st.skippedLeads.contains leadId

/-- A simulated restart of the content script: the in-memory state is
rebuilt by `loadSkippedLeads` from storage; `processedLeads` starts empty
(it is never persisted). -/
def restartContentScript (storage : SkipStorage) : RegistryState :=
  ⟨loadSkippedLeads storage, []⟩

/-- The skip reason recorded by `processLeadsWithFiltering`
(content.ts line 2566). -/
def skipListReason : String :=
  "Lead expired or already consumed by maximum permissible sellers (in skip list)"

/-- A `LeadEvaluation` entry (content.ts line 2330). -/
structure LeadEvaluation where
  lead : Lead
  passed : Bool
  reason : String
deriving DecidableEq, Repr

/-- The observable outcome of one filtering pass: the evaluation log, the
qualified leads, and — as instrumentation — the ids actually handed to
`applyIntelligentFilter`. -/
structure CycleResult where
  evaluations : List LeadEvaluation
  filteredLeads : List Lead
  filterInvoked : List String
deriving DecidableEq, Repr

/-- The per-lead loop of `processLeadsWithFiltering` (content.ts lines
2554-2594): leads already in `processedLeads` are dropped silently; leads
in the skip registry are recorded with `skipListReason` and never reach the
filter evaluator; every other lead is evaluated.  `rand i` supplies the
`Math.random` outcome for the lead at position `i`. -/
def processCycleAux (st : RegistryState) (cfg : FilterConfig) (rand : ℕ → Fin 3) :
    ℕ → List Lead → CycleResult
  | _, [] => ⟨[], [], []⟩
  | i, lead :: rest =>
    if st.processedLeads.contains lead.leadId then
      processCycleAux st cfg rand (i + 1) rest
    else if isLeadSkipped st lead.leadId then
      let r := processCycleAux st cfg rand (i + 1) rest
      ⟨⟨lead, false, skipListReason⟩ :: r.evaluations, r.filteredLeads, r.filterInvoked⟩
    else
      let v := applyIntelligentFilter cfg (rand i) lead
      let r := processCycleAux st cfg rand (i + 1) rest
      ⟨⟨lead, v.passed, v.reason⟩ :: r.evaluations,
       (if v.passed then lead :: r.filteredLeads else r.filteredLeads),
       lead.leadId :: r.filterInvoked⟩

def processCycle (st : RegistryState) (cfg : FilterConfig) (rand : ℕ → Fin 3)
    (leads : List Lead) : CycleResult :=
  processCycleAux st cfg rand 0 leads

/-! ## The change-aware log store (content.ts lines 2315-2508) -/

def MAX_SUMMARIES : ℕ := 20
def MAX_LEAD_LOGS : ℕ := 20
def DIAGNOSTICS_ENABLED : Bool := false

/-- JavaScript `array.slice(-n)`: the last `n` elements. -/
def takeLast (n : ℕ) (l : List String) : List String := l.drop (l.length - n)

/-- `JSON.stringify` escaping of one character. -/
def hexDigitChar (n : ℕ) : Char :=
  if n < 10 then Char.ofNat (48 + n) else Char.ofNat (87 + n)

def jsonEscapeChar (c : Char) : List Char :=
  if c = '"' then ['\\', '"']
  else if c = '\\' then ['\\', '\\']
  else if c = '\n' then ['\\', 'n']
  else if c = '\r' then ['\\', 'r']
  else if c = '\t' then ['\\', 't']
  else if c.toNat < 32 then
    ['\\', 'u', '0', '0', hexDigitChar (c.toNat / 16), hexDigitChar (c.toNat % 16)]
  else [c]

/-- `JSON.stringify` of a string value. -/
def jsonStr (s : String) : String :=
  "\"" ++ ⟨s.data.foldr (fun c acc => jsonEscapeChar c ++ acc) []⟩ ++ "\""

/-- `JSON.stringify` of the per-qualified-lead part of the signature
payload (content.ts lines 2413-2418). -/
def leadSigEntry (l : Lead) : String :=
  "\x7b\"id\":" ++ jsonStr l.leadId ++ ",\"c\":" ++ jsonStr l.companyName ++
    ",\"e\":" ++ jsonStr l.enquiryTitle ++ ",\"loc\":" ++ jsonStr l.location ++ "\x7d"

/-- `JSON.stringify` of the per-evaluation part of the signature payload
(content.ts lines 2419-2423). -/
def evalSigEntry (e : LeadEvaluation) : String :=
  "\x7b\"id\":" ++ jsonStr e.lead.leadId ++ ",\"passed\":" ++
    (if e.passed then "true" else "false") ++ ",\"reason\":" ++ jsonStr e.reason ++ "\x7d"

/-- The cycle signature: `JSON.stringify(signaturePayload)`
(content.ts lines 2409-2425). -/
def cycleSignature (totalLeads filteredLeadsCount rejectedLeads : ℕ)
    (filtered : List Lead) (evals : List LeadEvaluation) : String :=
  "\x7b\"totalLeads\":" ++ Nat.repr totalLeads ++
    ",\"filteredLeadsCount\":" ++ Nat.repr filteredLeadsCount ++
    ",\"rejectedLeads\":" ++ Nat.repr rejectedLeads ++
    ",\"filtered\":[" ++ String.intercalate "," (filtered.map leadSigEntry) ++
    "],\"evaluations\":[" ++ String.intercalate "," (evals.map evalSigEntry) ++ "]\x7d"

/-- Decimal rendering of a `ℚ` for the human-readable log text (JavaScript
prints numbers in decimal; every value the parsers produce is a finite
decimal, rendered here to at most 17 fractional digits).  Only equality of
rendered blocks matters to the claims below. -/
def fracDigitsAux : ℕ → ℕ → ℕ → List Char
  | 0, _, _ => []
  | _, 0, _ => []
  | fuel + 1, r, d =>
    let r10 := r * 10
    Char.ofNat (48 + r10 / d) :: fracDigitsAux fuel (r10 % d) d

def qToString (q : ℚ) : String :=
  let sign := if q < 0 then "-" else ""
  let n := q.num.natAbs
  let d := q.den
  if n % d = 0 then sign ++ Nat.repr (n / d)
  else sign ++ Nat.repr (n / d) ++ "." ++ ⟨fracDigitsAux 17 (n % d) d⟩

/-- JavaScript truthiness of a possibly-`undefined` number (`undefined`
and `0` are falsy). -/
def jsTruthyNum (a : Option ℚ) : Bool :=
  match a with
  | none => false
  | some x => x ≠ 0

/-- The summary block (content.ts lines 2441-2462), given the ambient
`timestamp` (`toISOString`), `dateStr` (`toLocaleString`) and page URL. -/
def summaryBlock (totalLeads filteredLeadsCount rejectedLeads : ℕ)
    (filtered : List Lead) (timestamp dateStr url : String) : String :=
  let pre := "[" ++ timestamp ++ "] [IndiaMART Agent] "
  let header : List String :=
    ["\n========== FILTERING SUMMARY - " ++ dateStr ++ " ==========",
     pre ++ "========== FILTERING SUMMARY ==========",
     pre ++ "Total leads: " ++ Nat.repr totalLeads,
     pre ++ "Filtered (qualified) leads: " ++ Nat.repr filteredLeadsCount,
     pre ++ "Rejected leads: " ++ Nat.repr rejectedLeads]
  let leadLines : List String :=
    if filtered.length > 0 then
      (pre ++ "Filtered leads list:") ::
        (filtered.enum.map (fun p =>
          pre ++ "  " ++ Nat.repr (p.1 + 1) ++ ". Company: " ++ p.2.companyName ++
            ", Enquiry: " ++ p.2.enquiryTitle ++ ", Location: " ++ p.2.location))
    else [pre ++ "Filtered leads list: Array(0)"]
  let footer : List String :=
    [pre ++ "URL: " ++ url, "========== END SUMMARY ==========\n"]
  String.intercalate "\n" (header ++ leadLines ++ footer)

/-- The per-lead detail block (content.ts lines 2463-2486). -/
def detailBlock (evals : List LeadEvaluation) (timestamp dateStr url : String) : String :=
  let pre := "[" ++ timestamp ++ "] [IndiaMART Agent] "
  let body : List String :=
    if evals.length = 0 then [pre ++ "No leads evaluated in this cycle."]
    else
      (evals.enum.map (fun p =>
        let lead := p.2.lead
        let status := if p.2.passed then "PASS" else "REJECT"
        let qtyText := match lead.quantity with
          | some q => qToString q
          | none => "N/A"
        let qtyRaw := jsOrStr (lead.quantityRaw.getD "") "N/A"
        let orderValue :=
          if jsTruthyNum lead.probableOrderValueMin || jsTruthyNum lead.probableOrderValueMax then
            "₹" ++ qToString (jsOrNum lead.probableOrderValueMin 0) ++ " - ₹" ++
              qToString (jsOrNum lead.probableOrderValueMax 0)
          else "N/A"
        String.intercalate "\n"
          [pre ++ Nat.repr (p.1 + 1) ++ ". [" ++ status ++ "] " ++ lead.companyName ++
             " — " ++ jsOrStr lead.enquiryTitle "No enquiry title",
           "    Reason: " ++ p.2.reason,
           "    Location: " ++ jsOrStr lead.location "N/A",
           "    Quantity: " ++ qtyText ++ " (" ++ qtyRaw ++ ")",
           "    Category: " ++ jsOrStr (lead.category.getD "") "N/A",
           "    Order Value: " ++ orderValue]))
  let lines : List String :=
    ("\n========== LEAD DETAILS - " ++ dateStr ++ " ==========") ::
      body ++ [pre ++ "URL: " ++ url, "========== END LEAD DETAILS ==========\n"]
  String.intercalate "\n" lines

/-- The stored state the log store touches: the two capped buffers, the
optional diagnostics stream, and the last cycle signature. -/
structure LogStorage where
  summaries : List String
  leadLogs : List String
  diagnostics : String
  lastSignature : Option String
deriving DecidableEq, Repr

/-- `saveFilteringSummaryToStorage` (content.ts lines 2392-2508): compute
the cycle signature; if it equals the stored one, write nothing; otherwise
append the summary and detail blocks to their capped ring buffers and
record the new signature (`DIAGNOSTICS_ENABLED` is `false`, so the
diagnostics stream is untouched). -/
def saveFilteringSummaryToStorage (st : LogStorage)
    (totalLeads filteredLeadsCount rejectedLeads : ℕ)
    (filteredLeads : List Lead) (evaluations : List LeadEvaluation)
    (timestamp dateStr url : String) : LogStorage :=
  let signature := cycleSignature totalLeads filteredLeadsCount rejectedLeads
    filteredLeads evaluations
  if st.lastSignature = some signature then st
  else
    { summaries := takeLast MAX_SUMMARIES
        (st.summaries ++ [summaryBlock totalLeads filteredLeadsCount rejectedLeads
          filteredLeads timestamp dateStr url]),
      leadLogs := takeLast MAX_LEAD_LOGS
        (st.leadLogs ++ [detailBlock evaluations timestamp dateStr url]),
      diagnostics := st.diagnostics,
      lastSignature := some signature }

/-! ## The suspension controller (background.ts lines 119-244) -/

/-- The persisted `SuspensionState` (background.ts lines 30-34). -/
structure SuspensionState where
  active : Bool
  resumeAt : Option ℕ
  restoreAutoContact : Option Bool
deriving DecidableEq, Repr

/-- The background worker's state bearing on suspension: the
`autoContactState` flags, the in-memory `suspensionState`, the value stored
under `BUY_LEAD_SUSPENSION_KEY`, and the pending `resumeAutoContact` alarm
time (if armed). -/
structure BgWorld where
  enabled : Bool
  stopped : Bool
  suspension : SuspensionState
  storedSuspension : Option SuspensionState
  resumeAlarm : Option ℕ
deriving DecidableEq, Repr

/-- A local wall-clock instant: the local calendar day index and the
milliseconds elapsed since that day's local midnight. -/
structure LocalTime where
  day : ℕ
  msOfDay : ℕ
deriving DecidableEq, Repr

def msPerDay : ℕ := 86400000

/-- `Date.now()` for a local instant. -/
def epochMs (t : LocalTime) : ℕ := t.day * msPerDay + t.msOfDay

/-- `calculateNextMidnight` (background.ts lines 119-125):
`setDate(getDate() + 1)` then `setHours(0, 0, 0, 0)` — the start of the
next local calendar day. -/
def calculateNextMidnight (t : LocalTime) : ℕ := (t.day + 1) * msPerDay

/-- `suspendAutomationForZeroBalance` (background.ts lines 150-189).  The
side effects modelled are the flag changes, the persisted state and the
resume alarm; badge, notification and tab messaging are outside the data
model. -/
def suspendAutomationForZeroBalance (w : BgWorld) (now : LocalTime) : BgWorld :=
  let resumeAt := calculateNextMidnight now
  let restoreAutoContact := w.enabled && !w.stopped
  if w.suspension.active then
    let s : SuspensionState :=
      { w.suspension with
        resumeAt := some resumeAt,
        restoreAutoContact :=
          some ((w.suspension.restoreAutoContact.getD false) || restoreAutoContact) }
    { w with suspension := s, storedSuspension := some s, resumeAlarm := some resumeAt }
  else
    let s : SuspensionState := ⟨true, some resumeAt, some restoreAutoContact⟩
    { enabled := false, stopped := true, suspension := s,
      storedSuspension := some s, resumeAlarm := some resumeAt }

/-- `resumeAutomationFromSuspension` (background.ts lines 191-222): clear
the persisted suspension and the alarm; re-enable automation exactly when
`restoreAutoContact` was set. -/
def resumeAutomationFromSuspension (w : BgWorld) : BgWorld :=
  if w.suspension.active = false then w
  else
    let shouldRestore := w.suspension.restoreAutoContact.getD false
    let w' : BgWorld :=
      { w with suspension := ⟨false, none, none⟩, storedSuspension := none,
               resumeAlarm := none }
    if shouldRestore then { w' with enabled := true, stopped := false }
    else w'

/-- JavaScript `a || b` for a possibly-`undefined` epoch value (`0` is
falsy). -/
def jsOrEpoch (a : Option ℕ) (b : ℕ) : ℕ :=
  match a with
  | none => b
  | some x => if x = 0 then b else x

/-- `initializeSuspensionState` (background.ts lines 224-244): restore the
persisted suspension; resume immediately when `resumeAt` is already past,
else re-arm the timer. -/
def initializeSuspensionState (w : BgWorld) (now : LocalTime) : BgWorld :=
  match w.storedSuspension with
  | none => w
  | some stored =>
    if stored.active = false then w
    else
      let w1 := { w with suspension := stored }
      let resumeAt := jsOrEpoch stored.resumeAt (calculateNextMidnight now)
      if resumeAt ≤ epochMs now then resumeAutomationFromSuspension w1
      else { w1 with resumeAlarm := some resumeAt }

/-- A background-worker restart at local instant `now`: in-memory state is
fresh (`autoContactState` starts disabled and not stopped, suspension
inactive, no alarm), the persisted value survives, and
`initializeSuspensionState` runs (background.ts line 327). -/
def restartBackground (storage : Option SuspensionState) (now : LocalTime) : BgWorld :=
  initializeSuspensionState
    ⟨false, false, ⟨false, none, none⟩, storage, none⟩ now

/-! ## The contact-flow lock (content.ts lines 1450-1460, 2276-2313, 2737-2743)

`withContactLock` busy-waits on the module flag `contactInFlight`
(re-checking every 200 ms), sets it, runs the task, and clears it in a
`finally`.  JavaScript is single-threaded and interleaves tasks only at
`await` points; the check of `contactInFlight` and the assignment
`contactInFlight = true` run with no `await` between them, so acquisition
is one atomic step.  A contact flow is modelled as the sequence of its
phases separated by `await` points; the scheduler below interleaves two
such tasks arbitrarily.

`processFilteredLead` (line 2279) runs `performContactFlow` under
`withContactLock`; the `CONTACT_LEAD` message handler (lines 2737-2743)
calls `performContactFlow` directly, without the lock. -/

/-- The phases of `performContactFlow` relevant to the mutual-exclusion
claim: locating the lead card, clicking Contact Buyer, composing the
message, and clicking Send Reply. -/
inductive FlowPhase
  | locating
  | initiating
  | composing
  | submitting
deriving DecidableEq, Repr

/-- One atomic step of a contact-flow task. -/
inductive FlowAction
  | acquireLock
  | releaseLock
  | work (p : FlowPhase)
deriving DecidableEq, Repr

/-- `withContactLock(() => performContactFlow(...))`, the
`processFilteredLead` path. -/
def lockedFlowProgram : List FlowAction :=
  [.acquireLock, .work .locating, .work .initiating, .work .composing,
   .work .submitting, .releaseLock]

/-- A bare `performContactFlow(...)` call, the `CONTACT_LEAD` handler path. -/
def directFlowProgram : List FlowAction :=
  [.work .locating, .work .initiating, .work .composing, .work .submitting]

/-- Two concurrently started contact-flow tasks plus the shared
`contactInFlight` flag. -/
structure SchedulerState where
  contactInFlight : Bool
  taskA : List FlowAction
  taskB : List FlowAction
deriving DecidableEq, Repr

/-- Run one atomic step of a task: an `acquireLock` step stalls (busy-wait
iteration) while the flag is set, otherwise sets it; `releaseLock` clears
it; a `work` step emits its phase. -/
def stepTask (prog : List FlowAction) (flag : Bool) :
    List FlowAction × Bool × List FlowPhase :=
  match prog with
  | [] => (prog, flag, [])
  | .acquireLock :: rest => if flag then (prog, flag, []) else (rest, true, [])
  | .releaseLock :: rest => (rest, false, [])
  | .work p :: rest => (rest, flag, [p])

/-- Schedule one step: `true` steps task A, `false` steps task B.  Emitted
events are tagged with the task. -/
def stepSys (choice : Bool) (s : SchedulerState) :
    SchedulerState × List (Bool × FlowPhase) :=
  if choice then
    let r := stepTask s.taskA s.contactInFlight
    ({ s with taskA := r.1, contactInFlight := r.2.1 }, r.2.2.map (fun e => (true, e)))
  else
    let r := stepTask s.taskB s.contactInFlight
    ({ s with taskB := r.1, contactInFlight := r.2.1 }, r.2.2.map (fun e => (false, e)))

/-- Run a whole schedule, accumulating the event trace. -/
def runSys (s : SchedulerState) : List Bool → SchedulerState × List (Bool × FlowPhase)
  | [] => (s, [])
  | c :: cs =>
    let r := stepSys c s
    let r' := runSys r.1 cs
    (r'.1, r.2 ++ r'.2)

/-- The four phases of one complete flow, in execution order. -/
def flowPhases : List FlowPhase := [.locating, .initiating, .composing, .submitting]

/-- The full event block of one task. -/
def fullEvts (who : Bool) : List (Bool × FlowPhase) := flowPhases.map (fun p => (who, p))

/-- The events a locked task has emitted once `pos` of its six actions have
run (action 0 is `acquireLock`, actions 1-4 the phases, action 5
`releaseLock`). -/
def evtsAt (who : Bool) (pos : ℕ) : List (Bool × FlowPhase) := (fullEvts who).take (pos - 1)

/-- Is a locked task at action count `pos` inside the critical section
(lock held)? -/
def insideCrit (pos : ℕ) : Bool := decide (1 ≤ pos) && decide (pos ≤ 5)

/-- Inductive invariant for two lock-wrapped flows: both task programs are
suffixes of `lockedFlowProgram`, at most one task holds the lock, the flag
is set exactly while some task holds it, and the trace so far is the first
entrant's block followed by the second's (the second only starts once the
first is done). -/
def LockInv (s : SchedulerState) (tr : List (Bool × FlowPhase)) : Prop :=
  ∃ pA : Fin 7, ∃ pB : Fin 7,
    s.taskA = lockedFlowProgram.drop pA.val ∧
    s.taskB = lockedFlowProgram.drop pB.val ∧
    ¬(insideCrit pA.val = true ∧ insideCrit pB.val = true) ∧
    s.contactInFlight = (insideCrit pA.val || insideCrit pB.val) ∧
    ((pB.val = 0 ∧ tr = evtsAt true pA.val) ∨
     (pA.val = 0 ∧ tr = evtsAt false pB.val) ∨
     (pA.val = 6 ∧ tr = evtsAt true 6 ++ evtsAt false pB.val) ∨
     (pB.val = 6 ∧ tr = evtsAt false 6 ++ evtsAt true pA.val))

instance (s : SchedulerState) (tr : List (Bool × FlowPhase)) : Decidable (LockInv s tr) := by
  unfold LockInv
  infer_instance

/-- Both flows started through `withContactLock`. -/
def initLockedPair : SchedulerState := ⟨false, lockedFlowProgram, lockedFlowProgram⟩

/-- A `withContactLock` flow racing a bare `performContactFlow` call made
by the `CONTACT_LEAD` message handler. -/
def initMixedPair : SchedulerState := ⟨false, lockedFlowProgram, directFlowProgram⟩

/-! ## Sample data used by witnesses and counterexamples -/

/-- A lead whose title contains no configured keyword. -/
def sampleSteelLead : Lead :=
  { leadId := "L1", companyName := "Acme Metals", enquiryTitle := "Steel pipes required",
    requirement := "Steel pipes", contactInfo := "", location := "Mumbai",
    timestamp := "today", quantityRaw := some "500 pieces", quantity := some 500,
    category := none, fabric := none, probableOrderValueRaw := none,
    probableOrderValueMin := some 100000, probableOrderValueMax := none,
    cardIndex := some 0 }

/-- A lead whose numeric quantity meets the default threshold but whose raw
quantity text does not mention the unit token `piece`. -/
def qtyNoUnitLead : Lead :=
  { leadId := "L2", companyName := "Beta Wear", enquiryTitle := "School uniforms needed",
    requirement := "School uniforms", contactInfo := "", location := "Delhi",
    timestamp := "today", quantityRaw := some "500 Units", quantity := some 500,
    category := none, fabric := none, probableOrderValueRaw := none,
    probableOrderValueMin := some 100000, probableOrderValueMax := none,
    cardIndex := some 1 }

/-- The same lead except that no numeric quantity was parsed at all. -/
def qtyUnparsedLead : Lead :=
  { qtyNoUnitLead with leadId := "L3", quantityRaw := some "bulk", quantity := none }

/-! ## Bridging lemmas for the kernel-computable rational operations -/

theorem qMul_eq_mul (a b : ℚ) : qMul a b = a * b := by
  rw [Rat.mul_def, Rat.normalize_eq_mkRat, qMul]

theorem qAdd_eq_add (a b : ℚ) : qAdd a b = a + b := by
  rw [Rat.add_def', qAdd]

theorem mkRat_natCast_eq_div (n d : ℕ) : mkRat n d = (n : ℚ) / (d : ℚ) := by
  rw [Rat.mkRat_eq_divInt, Rat.divInt_eq_div]
  norm_num

/-! ## Claim theorems -/

/-- C5: the magnitude-value parser satisfies the spec's worked examples:
`parseMagnitudeValue("₹1,20,000")` yields `min = max = 120000`, and
`parseMagnitudeValue("5 lakh - 8 lakh")` yields `min = 500000`,
`max = 800000` (the source function is `parseRupeeRange`). -/
theorem parseRupeeRange_spec_examples :
    parseRupeeRange (some "₹1,20,000") =
      ⟨some "₹1,20,000", some 120000, some 120000⟩ ∧
    parseRupeeRange (some "5 lakh - 8 lakh") =
      ⟨some "5 lakh - 8 lakh", some 500000, some 800000⟩ := by
  exact ⟨by decide, by decide⟩

/-- C10: `parseQuantity` deletes every character other than digits and dots
and parses the whole remainder as one number, so the range text `500-1000`
parses to the digit concatenation `5001000`; when the remainder is empty
(`no digits here`) or not a finite number (`1.2.3`), the quantity is
undefined while the raw text is still returned. -/
theorem parseQuantity_whole_remainder :
    parseQuantity (some "500-1000") = ⟨some "500-1000", some 5001000⟩ ∧
    parseQuantity (some "no digits here") = ⟨some "no digits here", none⟩ ∧
    parseQuantity (some "1.2.3") = ⟨some "1.2.3", none⟩ := by
  exact ⟨by decide, by decide, by decide⟩

/-- C9: for every field element that already holds non-empty (not
whitespace-only) content, `setElementValue` returns without changing the
field and without focusing it or dispatching any event. -/
theorem setElementValue_never_overwrites (element : DomField) (value : String)
    (h : jsTrim (if element.hasValue then element.value else element.textContent) ≠ "") :
    setElementValue element value = ⟨element, [], false⟩ := by
  unfold setElementValue
  by_cases hv : element.hasValue
  · rw [if_pos hv]
    rw [if_pos hv] at h
    have hne : element.value ≠ "" := by
      intro he
      rw [he] at h
      exact h rfl
    rw [if_pos ⟨hne, h⟩]
  · rw [if_neg hv]
    rw [if_neg hv] at h
    by_cases hc : element.isContentEditable
    · rw [if_pos hc]
      have hne : element.textContent ≠ "" := by
        intro he
        rw [he] at h
        exact h rfl
      rw [if_pos ⟨hne, h⟩]
    · rw [if_neg hc]

/-- Witness for C9 at a concrete input field holding a draft. -/
theorem setElementValue_never_overwrites_witness :
    jsTrim (if (⟨true, false, "existing draft", ""⟩ : DomField).hasValue then
        (⟨true, false, "existing draft", ""⟩ : DomField).value
      else (⟨true, false, "existing draft", ""⟩ : DomField).textContent) ≠ "" ∧
    setElementValue ⟨true, false, "existing draft", ""⟩ "Hello buyer" =
      ⟨⟨true, false, "existing draft", ""⟩, [], false⟩ :=
  ⟨by decide, setElementValue_never_overwrites _ _ (by decide)⟩

/-- C8 counterexample: a card with neither a `data-lead-id` attribute nor a
hidden `ofrid`/`gridParam` input gets an id built from its list position,
so the same record content at positions 0 and 1 yields different ids. -/
theorem buildLeadId_position_dependent :
    buildLeadId ⟨none, none, none⟩ 0 "School Uniforms" "2024-01-01" ≠
      buildLeadId ⟨none, none, none⟩ 1 "School Uniforms" "2024-01-01" := by
  decide

/-- C8 amended: when the card carries an intrinsic id — a truthy
`data-lead-id` attribute or a nonempty hidden `ofrid`/`gridParam` input —
`buildLeadId` is independent of the list position, so repeated extraction
passes of the same record yield the same id even at a different position. -/
theorem buildLeadId_stable_with_intrinsic_id (card : LeadCardIds)
    (h : jsTruthyStr card.dataLeadId = true ∨
      jsTruthyStr (jsOrOptStr (sanitizeOptional card.ofridValue)
        (sanitizeOptional card.gridParamValue)) = true)
    (i j : ℕ) (title timestamp : String) :
    buildLeadId card i title timestamp = buildLeadId card j title timestamp := by
  by_cases hd : jsTruthyStr card.dataLeadId = true
  · simp [buildLeadId, hd]
  · rcases h with h | h
    · exact absurd h hd
    · simp [buildLeadId, hd, h]

/-- Witness for C8 at a card with a `data-lead-id` attribute, extracted at
positions 0 and 7. -/
theorem buildLeadId_stable_with_intrinsic_id_witness :
    (jsTruthyStr (⟨some "OFR123", none, none⟩ : LeadCardIds).dataLeadId = true ∨
      jsTruthyStr (jsOrOptStr (sanitizeOptional (⟨some "OFR123", none, none⟩ : LeadCardIds).ofridValue)
        (sanitizeOptional (⟨some "OFR123", none, none⟩ : LeadCardIds).gridParamValue)) = true) ∧
    buildLeadId ⟨some "OFR123", none, none⟩ 0 "School Uniforms" "2024-01-01" =
      buildLeadId ⟨some "OFR123", none, none⟩ 7 "School Uniforms" "2024-01-01" :=
  ⟨Or.inl (by decide),
   buildLeadId_stable_with_intrinsic_id _ (Or.inl (by decide)) 0 7 _ _⟩

/-- C7: once the configuration is loaded, a lead whose lowered
title/requirement contains none of the configured keywords is rejected
with the keyword-failure reason, whatever its location, quantity, category
and order value. -/
theorem evaluate_no_keyword_fails (cfg : FilterConfig) (r : Fin 3) (lead : Lead)
    (hloaded : cfg.loaded = true)
    (hk : ∀ k ∈ cfg.enquiryKeywords, jsIncludes (titleLowerOf lead) k = false) :
    applyIntelligentFilter cfg r lead = ⟨false, "No uniform keywords found", 0⟩ := by
  have hany : hasKeywordB cfg lead = false := by
    rw [hasKeywordB, List.any_eq_false]
    intro k hkm
    simp [hk k hkm]
  simp [applyIntelligentFilter, hloaded, hany]

/-- Witness for C7: the default configuration rejects a steel-pipes lead
with the keyword-failure reason. -/
theorem evaluate_no_keyword_fails_witness :
    defaultFilterConfig.loaded = true ∧
    (∀ k ∈ defaultFilterConfig.enquiryKeywords,
      jsIncludes (titleLowerOf sampleSteelLead) k = false) ∧
    applyIntelligentFilter defaultFilterConfig ⟨0, by decide⟩ sampleSteelLead =
      ⟨false, "No uniform keywords found", 0⟩ :=
  ⟨rfl, by decide, evaluate_no_keyword_fails _ _ _ rfl (by decide)⟩

/-- C4 counterexample: under the default rules, a lead whose numeric
quantity (500 ≥ 100) meets the threshold but whose raw text `500 Units`
lacks the unit token, and a lead with no parsed numeric quantity at all,
receive the *same* verdict with the *same* quantity-failure reason — the
two failure modes are not distinct. -/
theorem quantity_failure_reasons_coincide :
    qtyNoUnitLead.quantity = some 500 ∧
    (100 : ℚ) ≤ 500 ∧
    jsIncludes (jsToLower "500 Units") "piece" = false ∧
    qtyUnparsedLead.quantity = none ∧
    applyIntelligentFilter defaultFilterConfig ⟨0, by decide⟩ qtyNoUnitLead =
      applyIntelligentFilter defaultFilterConfig ⟨0, by decide⟩ qtyUnparsedLead ∧
    (applyIntelligentFilter defaultFilterConfig ⟨0, by decide⟩ qtyNoUnitLead).reason =
      quantityFailReason defaultFilterConfig := by
  refine ⟨by decide, by decide, by decide, by decide, by decide, by decide⟩

/-- C4 amended: the quantity check passes only when the parsed numeric
quantity meets the threshold AND the raw quantity text mentions the unit
token case-insensitively; but the two failure modes share one reason
string: whenever the conjunction fails (keyword and location checks having
passed), the verdict is the single quantity-failure reason, whether or not
a numeric quantity was parsed. -/
theorem quantity_gate (cfg : FilterConfig) (r : Fin 3) (lead : Lead)
    (hloaded : cfg.loaded = true) (hk : hasKeywordB cfg lead = true)
    (hf : isForeignB lead = false) :
    (quantityUnitOkB cfg lead = true ↔
      ∃ q raw, lead.quantity = some q ∧ (cfg.quantityMin : ℚ) ≤ q ∧
        lead.quantityRaw = some raw ∧ jsIncludes (jsToLower raw) cfg.quantityUnit = true) ∧
    ((applyIntelligentFilter cfg r lead).passed = true → quantityUnitOkB cfg lead = true) ∧
    (quantityUnitOkB cfg lead = false →
      applyIntelligentFilter cfg r lead = ⟨false, quantityFailReason cfg, 0⟩) := by
  have hfail : quantityUnitOkB cfg lead = false →
      applyIntelligentFilter cfg r lead = ⟨false, quantityFailReason cfg, 0⟩ := by
    intro hq
    simp [applyIntelligentFilter, hloaded, hk, hf, hq]
  refine ⟨?_, ?_, hfail⟩
  · constructor
    · intro hq
      unfold quantityUnitOkB at hq
      rcases hq1 : lead.quantity with _ | q <;> rcases hq2 : lead.quantityRaw with _ | raw <;>
        rw [hq1, hq2] at hq <;> simp_all
    · rintro ⟨q, raw, h1, h2, h3, h4⟩
      unfold quantityUnitOkB
      rw [h1, h3]
      simp [h2, h4]
  · intro hp
    by_contra hq
    rw [Bool.not_eq_true] at hq
    rw [hfail hq] at hp
    simp at hp

/-- Witness for C4's amended theorem at the default configuration and the
unit-less lead. -/
theorem quantity_gate_witness :
    defaultFilterConfig.loaded = true ∧
    hasKeywordB defaultFilterConfig qtyNoUnitLead = true ∧
    isForeignB qtyNoUnitLead = false ∧
    (quantityUnitOkB defaultFilterConfig qtyNoUnitLead = false →
      applyIntelligentFilter defaultFilterConfig ⟨1, by decide⟩ qtyNoUnitLead =
        ⟨false, quantityFailReason defaultFilterConfig, 0⟩) :=
  ⟨rfl, by decide, by decide,
   (quantity_gate defaultFilterConfig ⟨1, by decide⟩ qtyNoUnitLead rfl (by decide)
     (by decide)).2.2⟩

/-- C6: the cycle-complete logging hook is idempotent.  When the stored
signature differs from the new inputs' signature, the first call appends
exactly one summary block and one detail block to their ring buffers
(capped at `MAX_SUMMARIES`/`MAX_LEAD_LOGS`), leaves diagnostics alone and
stores the cycle signature; a second call with identical inputs computes
the identical signature and is a no-op, leaving summaries, lead logs and
the stored signature unchanged. -/
theorem log_store_idempotent (st : LogStorage)
    (totalLeads filteredLeadsCount rejectedLeads : ℕ)
    (filteredLeads : List Lead) (evaluations : List LeadEvaluation)
    (ts₁ ds₁ url₁ ts₂ ds₂ url₂ : String)
    (hnew : st.lastSignature ≠
      some (cycleSignature totalLeads filteredLeadsCount rejectedLeads
        filteredLeads evaluations)) :
    (saveFilteringSummaryToStorage st totalLeads filteredLeadsCount rejectedLeads
        filteredLeads evaluations ts₁ ds₁ url₁).summaries =
      takeLast MAX_SUMMARIES (st.summaries ++
        [summaryBlock totalLeads filteredLeadsCount rejectedLeads filteredLeads ts₁ ds₁ url₁]) ∧
    (saveFilteringSummaryToStorage st totalLeads filteredLeadsCount rejectedLeads
        filteredLeads evaluations ts₁ ds₁ url₁).leadLogs =
      takeLast MAX_LEAD_LOGS (st.leadLogs ++ [detailBlock evaluations ts₁ ds₁ url₁]) ∧
    (saveFilteringSummaryToStorage st totalLeads filteredLeadsCount rejectedLeads
        filteredLeads evaluations ts₁ ds₁ url₁).diagnostics = st.diagnostics ∧
    (saveFilteringSummaryToStorage st totalLeads filteredLeadsCount rejectedLeads
        filteredLeads evaluations ts₁ ds₁ url₁).lastSignature =
      some (cycleSignature totalLeads filteredLeadsCount rejectedLeads
        filteredLeads evaluations) ∧
    saveFilteringSummaryToStorage
        (saveFilteringSummaryToStorage st totalLeads filteredLeadsCount rejectedLeads
          filteredLeads evaluations ts₁ ds₁ url₁)
        totalLeads filteredLeadsCount rejectedLeads filteredLeads evaluations
        ts₂ ds₂ url₂ =
      saveFilteringSummaryToStorage st totalLeads filteredLeadsCount rejectedLeads
        filteredLeads evaluations ts₁ ds₁ url₁ := by
  unfold saveFilteringSummaryToStorage
  rw [if_neg hnew]
  refine ⟨rfl, rfl, rfl, rfl, ?_⟩
  rw [if_pos rfl]

/-- Witness for C6: one cycle logged twice into an empty store. -/
theorem log_store_idempotent_witness :
    ((⟨[], [], "", none⟩ : LogStorage).lastSignature ≠
      some (cycleSignature 1 0 1 [] [⟨sampleSteelLead, false, "No uniform keywords found"⟩])) ∧
    saveFilteringSummaryToStorage
        (saveFilteringSummaryToStorage ⟨[], [], "", none⟩ 1 0 1 []
          [⟨sampleSteelLead, false, "No uniform keywords found"⟩] "T1" "D1" "U1")
        1 0 1 [] [⟨sampleSteelLead, false, "No uniform keywords found"⟩] "T2" "D2" "U2" =
      saveFilteringSummaryToStorage ⟨[], [], "", none⟩ 1 0 1 []
        [⟨sampleSteelLead, false, "No uniform keywords found"⟩] "T1" "D1" "U1" :=
  ⟨by decide,
   (log_store_idempotent ⟨[], [], "", none⟩ 1 0 1 []
     [⟨sampleSteelLead, false, "No uniform keywords found"⟩]
     "T1" "D1" "U1" "T2" "D2" "U2" (by decide)).2.2.2.2⟩

/-! ## Helper lemmas for the skip registry -/

theorem mem_insertSet (l : List String) (x y : String) :
    y ∈ insertSet l x ↔ y ∈ l ∨ y = x := by
  unfold insertSet
  by_cases hx : x ∈ l
  · rw [if_pos hx]
    constructor
    · exact Or.inl
    · rintro (h | rfl)
      · exact h
      · exact hx
  · rw [if_neg hx]
    simp

theorem mem_foldl_insertSet (l : List String) (acc : List String) (y : String) :
    y ∈ l.foldl insertSet acc ↔ y ∈ acc ∨ y ∈ l := by
  induction l generalizing acc with
  | nil => simp
  | cons x xs ih =>
    rw [List.foldl_cons, ih, mem_insertSet]
    simp only [List.mem_cons]
    tauto

theorem mem_setOfList (l : List String) (y : String) :
    y ∈ setOfList l ↔ y ∈ l := by
  unfold setOfList
  rw [mem_foldl_insertSet]
  simp

theorem filterMap_str_map (l : List String) :
    (l.map StoredItem.str).filterMap (fun v =>
      match v with
      | .str s => some s
      | .nonString => none) = l := by
  induction l with
  | nil => rfl
  | cons x xs ih => simp [List.filterMap_cons, ih]

/-- After a restart from the storage written by `addSkippedLead st storage id`
(with `id` truthy), the in-memory registry still has `id`. -/
theorem restart_preserves_skipped (st : RegistryState) (storage : SkipStorage)
    (id : String) (hid : id ≠ "") :
    isLeadSkipped (restartContentScript (addSkippedLead st storage id).2) id = true := by
  unfold addSkippedLead
  rw [if_neg hid]
  unfold restartContentScript loadSkippedLeads isLeadSkipped
  rw [if_neg hid]
  simp only [filterMap_str_map]
  have hmem : id ∈ insertSet st.skippedLeads id := (mem_insertSet _ _ _).mpr (Or.inr rfl)
  have hne : insertSet st.skippedLeads id ≠ [] := by
    intro he
    rw [he] at hmem
    exact List.not_mem_nil _ hmem
  rw [if_pos (by simpa [List.length_pos] using hne)]
  exact List.elem_iff.mpr ((mem_setOfList _ _).mpr hmem)

/-- The per-lead loop never hands a skipped id to the filter evaluator and
always records the skip reason for it, whenever the id is in the skip set
and the processed set is empty (as it is right after a restart). -/
theorem processCycleAux_skipped (st : RegistryState) (cfg : FilterConfig)
    (rand : ℕ → Fin 3) (id : String) (hsk : isLeadSkipped st id = true)
    (hpr : st.processedLeads = []) (i : ℕ) (leads : List Lead) :
    id ∉ (processCycleAux st cfg rand i leads).filterInvoked ∧
    ∀ lead ∈ leads, lead.leadId = id →
      (⟨lead, false, skipListReason⟩ : LeadEvaluation) ∈
        (processCycleAux st cfg rand i leads).evaluations := by
  induction leads generalizing i with
  | nil => exact ⟨List.not_mem_nil _, by simp⟩
  | cons lead rest ih =>
    obtain ⟨ih₁, ih₂⟩ := ih (i + 1)
    have hc : ¬(st.processedLeads.contains lead.leadId = true) := by
      rw [hpr]
      exact fun h => nomatch h
    have hres : processCycleAux st cfg rand i (lead :: rest) =
        if st.processedLeads.contains lead.leadId then
          processCycleAux st cfg rand (i + 1) rest
        else if isLeadSkipped st lead.leadId then
          ⟨⟨lead, false, skipListReason⟩ ::
            (processCycleAux st cfg rand (i + 1) rest).evaluations,
           (processCycleAux st cfg rand (i + 1) rest).filteredLeads,
           (processCycleAux st cfg rand (i + 1) rest).filterInvoked⟩
        else
          ⟨⟨lead, (applyIntelligentFilter cfg (rand i) lead).passed,
              (applyIntelligentFilter cfg (rand i) lead).reason⟩ ::
            (processCycleAux st cfg rand (i + 1) rest).evaluations,
           (if (applyIntelligentFilter cfg (rand i) lead).passed then
              lead :: (processCycleAux st cfg rand (i + 1) rest).filteredLeads
            else (processCycleAux st cfg rand (i + 1) rest).filteredLeads),
           lead.leadId :: (processCycleAux st cfg rand (i + 1) rest).filterInvoked⟩ := rfl
    rw [hres, if_neg hc]
    by_cases hskip : isLeadSkipped st lead.leadId = true
    · rw [if_pos hskip]
      refine ⟨ih₁, ?_⟩
      intro lead' hmem hid'
      rcases List.mem_cons.mp hmem with rfl | hmem'
      · exact List.mem_cons_self _ _
      · exact List.mem_cons_of_mem _ (ih₂ lead' hmem' hid')
    · rw [if_neg hskip]
      have hne : lead.leadId ≠ id := fun he => hskip (he ▸ hsk)
      constructor
      · intro hmem
        rcases List.mem_cons.mp hmem with he | hmem'
        · exact hne he.symm
        · exact ih₁ hmem'
      · intro lead' hmem hid'
        rcases List.mem_cons.mp hmem with rfl | hmem'
        · exact absurd hid' hne
        · exact List.mem_cons_of_mem _ (ih₂ lead' hmem' hid')

/-- C3: skip-registry durability.  After `addSkippedLead` records a (truthy)
lead id — as the contact flow does on a terminal expired/already-consumed
rejection — a simulated restart still reports the id as skipped, and in any
later cycle the filter evaluator is never invoked for that id: every lead
bearing it is recorded with the skip reason and excluded before
evaluation. -/
theorem skip_registry_durable (st : RegistryState) (storage : SkipStorage)
    (id : String) (hid : id ≠ "") (cfg : FilterConfig) (rand : ℕ → Fin 3)
    (leads : List Lead) :
    isLeadSkipped (restartContentScript (addSkippedLead st storage id).2) id = true ∧
    id ∉ (processCycle (restartContentScript (addSkippedLead st storage id).2)
      cfg rand leads).filterInvoked ∧
    ∀ lead ∈ leads, lead.leadId = id →
      (⟨lead, false, skipListReason⟩ : LeadEvaluation) ∈
        (processCycle (restartContentScript (addSkippedLead st storage id).2)
          cfg rand leads).evaluations := by
  have h₁ := restart_preserves_skipped st storage id hid
  have h₂ := processCycleAux_skipped
    (restartContentScript (addSkippedLead st storage id).2) cfg rand id h₁ rfl 0 leads
  exact ⟨h₁, h₂.1, h₂.2⟩

/-- Witness for C3: one skipped id, one later cycle containing a lead with
that id. -/
theorem skip_registry_durable_witness :
    ("OFR9" ≠ "") ∧
    isLeadSkipped (restartContentScript (addSkippedLead ⟨[], []⟩ ⟨none⟩ "OFR9").2)
      "OFR9" = true ∧
    "OFR9" ∉ (processCycle (restartContentScript (addSkippedLead ⟨[], []⟩ ⟨none⟩ "OFR9").2)
      defaultFilterConfig (fun _ => ⟨0, by decide⟩)
      [{ sampleSteelLead with leadId := "OFR9" }]).filterInvoked ∧
    (⟨{ sampleSteelLead with leadId := "OFR9" }, false, skipListReason⟩ : LeadEvaluation) ∈
      (processCycle (restartContentScript (addSkippedLead ⟨[], []⟩ ⟨none⟩ "OFR9").2)
        defaultFilterConfig (fun _ => ⟨0, by decide⟩)
        [{ sampleSteelLead with leadId := "OFR9" }]).evaluations := by
  have h := skip_registry_durable ⟨[], []⟩ ⟨none⟩ "OFR9" (by decide)
    defaultFilterConfig (fun _ => ⟨0, by decide⟩)
    [{ sampleSteelLead with leadId := "OFR9" }]
  exact ⟨by decide, h.1, h.2.1, h.2.2 _ (List.mem_singleton.mpr rfl) rfl⟩

/-- C2: suspension round-trip.  Creating a zero-balance suspension while no
suspension is active persists `active = true`, `resumeAt` equal to the next
local midnight, and `restoreAutoContact` recording whether automation was
running (`enabled ∧ ¬stopped` — `true` in the claim's scenario), and
force-disables automation.  After a process restart at any instant past
`resumeAt`, the persisted suspension is cleared, the alarm is gone, and
automation is restored to its pre-suspension value: re-enabled if it was
running, left disabled otherwise, and in either case no longer stopped. -/
theorem suspension_round_trip (w : BgWorld) (t₀ t₁ : LocalTime)
    (hactive : w.suspension.active = false)
    (hpast : calculateNextMidnight t₀ ≤ epochMs t₁) :
    (suspendAutomationForZeroBalance w t₀).storedSuspension =
      some ⟨true, some (calculateNextMidnight t₀), some (w.enabled && !w.stopped)⟩ ∧
    (suspendAutomationForZeroBalance w t₀).enabled = false ∧
    (suspendAutomationForZeroBalance w t₀).stopped = true ∧
    (restartBackground (suspendAutomationForZeroBalance w t₀).storedSuspension
        t₁).storedSuspension = none ∧
    (restartBackground (suspendAutomationForZeroBalance w t₀).storedSuspension
        t₁).suspension.active = false ∧
    (restartBackground (suspendAutomationForZeroBalance w t₀).storedSuspension
        t₁).resumeAlarm = none ∧
    (restartBackground (suspendAutomationForZeroBalance w t₀).storedSuspension
        t₁).enabled = (w.enabled && !w.stopped) ∧
    (restartBackground (suspendAutomationForZeroBalance w t₀).storedSuspension
        t₁).stopped = false := by
  have hm0 : (t₀.day + 1) * msPerDay ≠ 0 :=
    Nat.mul_ne_zero (Nat.succ_ne_zero _) (by decide)
  have hpast' : (t₀.day + 1) * msPerDay ≤ epochMs t₁ := hpast
  cases hr : (w.enabled && !w.stopped) <;>
    simp [suspendAutomationForZeroBalance, restartBackground, initializeSuspensionState,
      resumeAutomationFromSuspension, jsOrEpoch, calculateNextMidnight, hactive, hr,
      hm0, hpast']

/-- Witness for C2: a running automation suspended just after local
midnight of day 0 and restarted at local midnight of day 1. -/
theorem suspension_round_trip_witness :
    ((⟨true, false, ⟨false, none, none⟩, none, none⟩ : BgWorld).suspension.active = false) ∧
    calculateNextMidnight ⟨0, 1000⟩ ≤ epochMs ⟨1, 0⟩ ∧
    (suspendAutomationForZeroBalance ⟨true, false, ⟨false, none, none⟩, none, none⟩
        ⟨0, 1000⟩).storedSuspension =
      some ⟨true, some (calculateNextMidnight ⟨0, 1000⟩), some true⟩ ∧
    (restartBackground
        (suspendAutomationForZeroBalance ⟨true, false, ⟨false, none, none⟩, none, none⟩
          ⟨0, 1000⟩).storedSuspension ⟨1, 0⟩).storedSuspension = none ∧
    (restartBackground
        (suspendAutomationForZeroBalance ⟨true, false, ⟨false, none, none⟩, none, none⟩
          ⟨0, 1000⟩).storedSuspension ⟨1, 0⟩).enabled = true := by
  have h := suspension_round_trip ⟨true, false, ⟨false, none, none⟩, none, none⟩
    ⟨0, 1000⟩ ⟨1, 0⟩ rfl (by decide)
  exact ⟨rfl, by decide, h.1, h.2.2.2.1, h.2.2.2.2.2.2.1⟩

/-! ## Helper lemmas for the contact-flow lock -/

/-- One scheduler step preserves the lock invariant for two lock-wrapped
flows. -/
theorem lockInv_step (c : Bool) (s : SchedulerState) (tr : List (Bool × FlowPhase))
    (h : LockInv s tr) : LockInv (stepSys c s).1 (tr ++ (stepSys c s).2) := by
  obtain ⟨flag, tA, tB⟩ := s
  obtain ⟨pA, pB, hA, hB, hmx, hflag, htr⟩ := h
  dsimp only at hA hB hflag
  subst hA
  subst hB
  subst hflag
  cases c <;> fin_cases pA <;> fin_cases pB <;>
    rcases htr with ⟨h1, h2⟩ | ⟨h1, h2⟩ | ⟨h1, h2⟩ | ⟨h1, h2⟩ <;>
    first
      | exact absurd (by decide) hmx
      | exact absurd h1 (by decide)
      | (subst h2; decide)

/-- The lock invariant holds along any schedule. -/
theorem lockInv_run (sched : List Bool) (s : SchedulerState)
    (tr : List (Bool × FlowPhase)) (h : LockInv s tr) :
    LockInv (runSys s sched).1 (tr ++ (runSys s sched).2) := by
  induction sched generalizing s tr with
  | nil => simpa [runSys] using h
  | cons c cs ih =>
    have h2 := ih (stepSys c s).1 (tr ++ (stepSys c s).2) (lockInv_step c s tr h)
    simpa [runSys, List.append_assoc] using h2

/-- C1 amended: two contact flows that both run under `withContactLock`
(the dispatch path `processFilteredLead`) serialize under every
interleaving: when both flows have completed, the trace is one flow's
entire `Locating → … → Submitting` block followed by the other's, so
exactly one reaches its submit step before the other begins locating its
lead card.  (The `CONTACT_LEAD` handler path is NOT covered: it bypasses
the lock — see the counterexample.) -/
theorem contact_flows_serialize (sched : List Bool)
    (hA : (runSys initLockedPair sched).1.taskA = [])
    (hB : (runSys initLockedPair sched).1.taskB = []) :
    ∃ f : Bool, (runSys initLockedPair sched).2 = fullEvts f ++ fullEvts (!f) := by
  have h := lockInv_run sched initLockedPair [] (by decide)
  rw [List.nil_append] at h
  obtain ⟨pA, pB, hA', hB', hmx, hflag, htr⟩ := h
  have hlen : lockedFlowProgram.length = 6 := by decide
  have hA6 : pA.val = 6 := by
    have hd : lockedFlowProgram.drop pA.val = [] := hA'.symm.trans hA
    rw [List.drop_eq_nil_iff, hlen] at hd
    have h7 := pA.isLt
    omega
  have hB6 : pB.val = 6 := by
    have hd : lockedFlowProgram.drop pB.val = [] := hB'.symm.trans hB
    rw [List.drop_eq_nil_iff, hlen] at hd
    have h7 := pB.isLt
    omega
  rcases htr with ⟨h1, _⟩ | ⟨h1, _⟩ | ⟨_, h2⟩ | ⟨_, h2⟩
  · rw [hB6] at h1
    exact absurd h1 (by decide)
  · rw [hA6] at h1
    exact absurd h1 (by decide)
  · refine ⟨true, ?_⟩
    rw [h2, hB6]
    decide
  · refine ⟨false, ?_⟩
    rw [h2, hA6]
    decide

/-- Witness for C1's amended theorem: the schedule that runs flow A to
completion and then flow B. -/
theorem contact_flows_serialize_witness :
    (runSys initLockedPair
      [true, true, true, true, true, true, false, false, false, false, false, false]).1.taskA
        = [] ∧
    (runSys initLockedPair
      [true, true, true, true, true, true, false, false, false, false, false, false]).1.taskB
        = [] ∧
    ∃ f : Bool,
      (runSys initLockedPair
        [true, true, true, true, true, true, false, false, false, false, false, false]).2 =
        fullEvts f ++ fullEvts (!f) :=
  ⟨by decide, by decide,
   contact_flows_serialize
     [true, true, true, true, true, true, false, false, false, false, false, false]
     (by decide) (by decide)⟩

/-- C1 counterexample: the claim as stated fails, because the
`CONTACT_LEAD` message handler (content.ts lines 2737-2743) invokes
`performContactFlow` directly without `withContactLock`.  In the
interleaving below, the locked flow A acquires the lock and begins
locating; the handler-started flow B then runs its entire flow — locating,
initiating, composing and submitting — while A is still in flight, so
neither flow reaches its submit step before the other begins locating. -/
theorem contact_flow_lock_bypassed :
    (runSys initMixedPair
      [true, true, false, false, false, false, true, true, true, true]).1.taskA = [] ∧
    (runSys initMixedPair
      [true, true, false, false, false, false, true, true, true, true]).1.taskB = [] ∧
    (runSys initMixedPair
      [true, true, false, false, false, false, true, true, true, true]).2 =
      [(true, .locating), (false, .locating), (false, .initiating), (false, .composing),
       (false, .submitting), (true, .initiating), (true, .composing), (true, .submitting)] ∧
    ¬ ∃ f : Bool,
      (runSys initMixedPair
        [true, true, false, false, false, false, true, true, true, true]).2 =
        fullEvts f ++ fullEvts (!f) := by
  refine ⟨by decide, by decide, by decide, ?_⟩
  decide

end AiIndiaMart
